import Mathlib

/-!
Verification development for the AI-Stock-Analysis news pipeline
(`analyzer.py`, `utils.py`, `scraper.py`).

The Python code is shallowly embedded: Python `str` becomes `String` /
`List Char`, Python `float` becomes `ℚ` (the scores and densities in the
code are exact decimal combinations, so rational arithmetic models them
faithfully for every comparison made by the code), Python exceptions become
`Except String`, and `dict`-shaped records become structures with `Option`
fields for keys that may be absent.  External libraries (TextBlob / nltk)
are modelled as an explicit estimator parameter, exactly as the code treats
them: an opaque source of polarity / subjectivity values whose failure is
caught inside `analyze_sentiment`.

All recursions are structural (on a list or on an explicit fuel counter
initialised to the string length), so every definition evaluates inside the
kernel.
-/

namespace StockAnalysis

/-! ### Kernel-reducing rational arithmetic

`Rat.add` and friends are `@[irreducible]` in Batteries, which blocks
evaluation by `decide`.  The embedding therefore uses `mkRat`-based
operations that reduce, together with bridge lemmas identifying them with
the standard ring operations on `ℚ` (used in all symbolic proofs). -/

/-- Reducing addition on `ℚ`. -/
def qadd (a b : ℚ) : ℚ := mkRat (a.num * b.den + b.num * a.den) (a.den * b.den)

/-- Reducing negation on `ℚ`. -/
def qneg (a : ℚ) : ℚ := mkRat (-a.num) a.den

/-- Reducing subtraction on `ℚ`. -/
def qsub (a b : ℚ) : ℚ := mkRat (a.num * b.den - b.num * a.den) (a.den * b.den)

/-- Reducing multiplication on `ℚ`. -/
def qmul (a b : ℚ) : ℚ := mkRat (a.num * b.num) (a.den * b.den)

/-- Reducing inverse on `ℚ` (with `qinv 0 = 0`, as in Lean and as in the
unreachable-zero cases of the Python code). -/
def qinv (a : ℚ) : ℚ :=
  if a.num < 0 then mkRat (-(a.den : Int)) a.num.natAbs else mkRat a.den a.num.natAbs

/-- Reducing division on `ℚ`. -/
def qdiv (a b : ℚ) : ℚ := qmul a (qinv b)

/-- Reducing absolute value on `ℚ`. -/
def qabs (a : ℚ) : ℚ := if a < 0 then qneg a else a

/-- Reducing minimum on `ℚ`. -/
def qmin (a b : ℚ) : ℚ := if a ≤ b then a else b

/-- Reducing maximum on `ℚ`. -/
def qmax (a b : ℚ) : ℚ := if a ≤ b then b else a

theorem qadd_eq (a b : ℚ) : qadd a b = a + b := (Rat.add_def' a b).symm

theorem qneg_eq (a : ℚ) : qneg a = -a := by
  rw [qneg, ← Rat.neg_mkRat, Rat.mkRat_self]

theorem qsub_eq (a b : ℚ) : qsub a b = a - b := (Rat.sub_def' a b).symm

theorem qmul_eq (a b : ℚ) : qmul a b = a * b := by
  rw [Rat.mul_def, Rat.normalize_eq_mkRat, qmul]

theorem qinv_eq (a : ℚ) : qinv a = a⁻¹ := by
  rw [Rat.inv_def', qinv]
  rcases h : a.num with n | m
  · have hn : ¬ (Int.ofNat n < 0) := Int.not_lt.mpr (Int.ofNat_nonneg n)
    rw [if_neg hn]
    show mkRat (↑a.den) n = Rat.divInt (↑a.den) (Int.ofNat n)
    rw [show (Int.ofNat n) = ((n : Nat) : Int) from rfl, Rat.divInt_ofNat]
  · have hm : Int.negSucc m < 0 := Int.negSucc_lt_zero m
    rw [if_pos hm]
    show mkRat (-(↑a.den)) (m+1) = Rat.divInt (↑a.den) (Int.negSucc m)
    rw [show Rat.divInt (↑a.den) (Int.negSucc m) = Rat.normalize (-(↑a.den)) (m+1) nofun from rfl,
      Rat.normalize_eq_mkRat]

theorem qdiv_eq (a b : ℚ) : qdiv a b = a / b := by
  rw [qdiv, qmul_eq, qinv_eq, div_eq_mul_inv]

theorem qabs_eq (a : ℚ) : qabs a = |a| := by
  rw [qabs]
  by_cases h : a < 0
  · rw [if_pos h, qneg_eq, abs_of_neg h]
  · rw [if_neg h, abs_of_nonneg (le_of_not_lt h)]

theorem qmin_eq (a b : ℚ) : qmin a b = min a b := (min_def a b).symm

theorem qmax_eq (a b : ℚ) : qmax a b = max a b := (max_def a b).symm

/-! ### Python string primitives -/

/-- Python whitespace test (`str.split` / `str.strip` default separators). -/
def isWs (c : Char) : Bool := c.isWhitespace

/-- Python `str.lower()` (ASCII case folding; all repository inputs are
ASCII apart from `₹`, which `lower()` leaves unchanged). -/
def lowerStr (s : String) : String := String.mk (s.data.map Char.toLower)

/-- Substring containment on character lists, i.e. Python `needle in hay`. -/
def hasSubstr (n : List Char) : List Char → Bool
  | [] => n.isEmpty
  | c :: rest => n.isPrefixOf (c :: rest) || hasSubstr n rest

/-- Python `needle in hay` on strings. -/
def pyIn (needle hay : String) : Bool := hasSubstr needle.data hay.data

/-- Worker for `pyTokens`; fuel is an upper bound on the list length. -/
def pyTokensGo : Nat → List Char → List String
  | 0, _ => []
  | _, [] => []
  | fuel+1, c :: rest =>
    if isWs c then pyTokensGo fuel rest
    else String.mk (c :: rest.takeWhile (fun d => ¬ isWs d)) ::
      pyTokensGo fuel (rest.dropWhile (fun d => ¬ isWs d))

/-- Python `str.split()` with no arguments: split on whitespace runs,
dropping empty tokens. -/
def pyTokens (s : String) : List String := pyTokensGo s.data.length s.data

/-- Strip trailing characters satisfying `p`. -/
def dropTrail (p : Char → Bool) (l : List Char) : List Char :=
  (l.reverse.dropWhile p).reverse

/-- Python `str.strip()` on a character list. -/
def stripChars (cs : List Char) : List Char := dropTrail isWs (cs.dropWhile isWs)

/-- Python `str.strip()`. -/
def pyStrip (s : String) : String := String.mk (stripChars s.data)

/-- Python `' '.join(parts)`. -/
def joinSp : List String → String
  | [] => ""
  | [x] => x
  | x :: rest => x ++ " " ++ joinSp rest

/-- Worker for `pyReplace`; replaces every occurrence of `pat` (assumed
nonempty in all uses) left-to-right, non-overlapping. -/
def replaceAllGo (pat rep : List Char) : Nat → List Char → List Char
  | 0, cs => cs
  | _, [] => []
  | fuel+1, c :: rest =>
    if pat.isPrefixOf (c :: rest) then
      rep ++ replaceAllGo pat rep fuel (List.drop (pat.length - 1) rest)
    else c :: replaceAllGo pat rep fuel rest

/-- Python `s.replace(pat, rep)`. -/
def pyReplace (s pat rep : String) : String :=
  String.mk (replaceAllGo pat.data rep.data s.data.length s.data)

/-- Worker for `dedupSet`. -/
def dedupGo (seen : List String) : List String → List String
  | [] => []
  | a :: rest => if a ∈ seen then dedupGo seen rest else a :: dedupGo (a :: seen) rest

/-- Model of Python `list(set(xs))`: duplicates removed.  CPython's set
iteration order is hash-dependent; we fix the first-occurrence order.  No
theorem below depends on the order between distinct surviving elements. -/
def dedupSet (l : List String) : List String := dedupGo [] l

/-! ### `utils.clean_company_name` and `utils.extract_company_variants` -/

/-- The suffix list of `clean_company_name`, in source order. -/
def companySuffixes : List String :=
  [" limited", " ltd", " ltd.", " corporation", " corp", " corp.",
   " company", " co", " co.", " inc", " inc.", " llc",
   " private limited", " pvt ltd", " pvt. ltd.",
   " public limited", " plc"]

/-- Worker for `collapseWs`. -/
def collapseGo : Nat → List Char → List Char
  | 0, _ => []
  | _, [] => []
  | fuel+1, c :: rest =>
    if isWs c then ' ' :: collapseGo fuel (rest.dropWhile isWs)
    else c :: collapseGo fuel rest

/-- Python `re.sub(r'\s+', ' ', s)`. -/
def collapseWs (s : String) : String := String.mk (collapseGo s.data.length s.data)

/-- `utils.clean_company_name` (`\w` modelled as ASCII alphanumeric or
underscore; all company names in scope are ASCII). -/
def clean_company_name (name : String) : String :=
  let n1 := companySuffixes.foldl (fun acc suf => pyReplace acc suf "") (lowerStr name)
  let n2 := String.mk (n1.data.map
    (fun c => if c.isAlphanum || c = '_' || isWs c then c else ' '))
  pyStrip (collapseWs n2)

/-- `utils.extract_company_variants`. -/
def extract_company_variants (company_name : String) : List String :=
  let clean := clean_company_name company_name
  let v1 := [company_name] ++
    (if clean ≠ "" ∧ clean ≠ lowerStr company_name then [clean] else [])
  let words := pyTokens clean
  let v2 := v1 ++
    (if words.length > 1 then
      (let acronym := String.mk (words.filterMap (fun w => w.data.head?.map Char.toUpper))
       if acronym.length > 1 then [acronym] else [])
     else [])
  let v3 := v2 ++ (if words.length ≥ 2 then [joinSp (words.take 3)] else [])
  dedupSet v3

/-! ### `utils.extract_numbers_from_text`

Each regex in the source is embedded as a dedicated scanner reproducing
`re.findall` semantics for that pattern: left-to-right scan, greedy digit /
fraction / whitespace consumption (backtracking can never rescue a failed
suffix for these patterns, since every suffix starts with a non-digit,
non-dot, non-whitespace character), non-overlapping matches resuming after
each match end. -/

/-- Consume a case-insensitive literal, returning the remainder. -/
def matchLit : List Char → List Char → Option (List Char)
  | [], cs => some cs
  | _ :: _, [] => none
  | l :: lt, c :: ct => if c.toLower = l.toLower then matchLit lt ct else none

/-- Greedily consume one optional (case-insensitive) character. -/
def matchOpt (extra : Char) : List Char → List Char
  | [] => []
  | c :: t => if c.toLower = extra.toLower then t else c :: t

/-- Try alternation branches in order; each branch is a literal plus an
optional trailing character (covering `crores?`, `cr\.?`, `%`, ...). -/
def sfxBranches : List (List Char × Option Char) → List Char → Option (List Char)
  | [], _ => none
  | (lit, opt?) :: rest, cs =>
    match matchLit lit cs with
    | some r => some (match opt? with | some o => matchOpt o r | none => r)
    | none => sfxBranches rest cs

/-- Greedy `(\d+(?:\.\d+)?)` at the head: captured characters and rest. -/
def matchNumberAt (cs : List Char) : Option (List Char × List Char) :=
  let ds := cs.takeWhile (·.isDigit)
  if ds.isEmpty then none
  else
    let rest := cs.dropWhile (·.isDigit)
    match rest with
    | '.' :: r2 =>
      let fs := r2.takeWhile (·.isDigit)
      if fs.isEmpty then some (ds, rest)
      else some (ds ++ '.' :: fs, r2.dropWhile (·.isDigit))
    | _ => some (ds, rest)

/-- `re.findall` for `(\d+(?:\.\d+)?)\s*SUFFIX` patterns. -/
def scanMag (sfx : List (List Char × Option Char)) : Nat → List Char → List (List Char)
  | 0, _ => []
  | _, [] => []
  | fuel+1, c :: rest =>
    match matchNumberAt (c :: rest) with
    | some (grp, r1) =>
      match sfxBranches sfx (r1.dropWhile isWs) with
      | some r2 => grp :: scanMag sfx fuel r2
      | none => scanMag sfx fuel rest
    | none => scanMag sfx fuel rest

/-- Greedy `(?:,\d+)*` continuation for the currency patterns. -/
def commaGroupsGo : Nat → List Char → List Char → (List Char × List Char)
  | 0, acc, cs => (acc, cs)
  | fuel+1, acc, cs =>
    match cs with
    | ',' :: r =>
      let ds := r.takeWhile (·.isDigit)
      if ds.isEmpty then (acc, cs)
      else commaGroupsGo fuel (acc ++ ',' :: ds) (r.dropWhile (·.isDigit))
    | _ => (acc, cs)

/-- Match `SYM\s*(\d+(?:,\d+)*(?:\.\d+)?)` at the head. -/
def matchCurrencyAt (sym : Char) (cs : List Char) : Option (List Char × List Char) :=
  match cs with
  | [] => none
  | c :: rest =>
    if c = sym then
      let r1 := rest.dropWhile isWs
      let ds := r1.takeWhile (·.isDigit)
      if ds.isEmpty then none
      else
        let (g1, r2) := commaGroupsGo r1.length ds (r1.dropWhile (·.isDigit))
        match r2 with
        | '.' :: r3 =>
          let fs := r3.takeWhile (·.isDigit)
          if fs.isEmpty then some (g1, r2)
          else some (g1 ++ '.' :: fs, r3.dropWhile (·.isDigit))
        | _ => some (g1, r2)
    else none

/-- `re.findall` for the two currency patterns. -/
def scanCur (sym : Char) : Nat → List Char → List (List Char)
  | 0, _ => []
  | _, [] => []
  | fuel+1, c :: rest =>
    match matchCurrencyAt sym (c :: rest) with
    | some (grp, r2) => grp :: scanCur sym fuel r2
    | none => scanCur sym fuel rest

/-- Digit characters to a natural number. -/
def digitsToNat (cs : List Char) : Nat :=
  cs.foldl (fun n c => 10 * n + (c.toNat - 48)) 0

/-- Python `float(group.replace(',', ''))` for the captured groups, which
always have the shape `digits[,digits]*[.digits]` (so the parse always
succeeds and is an exact decimal, modelled exactly in `ℚ`). -/
def parseCap (cs : List Char) : ℚ :=
  let cs := cs.filter (· ≠ ',')
  let intPart := cs.takeWhile (·.isDigit)
  let rest := cs.dropWhile (·.isDigit)
  let frac := match rest with | '.' :: f => f | _ => []
  mkRat (digitsToNat (intPart ++ frac) : Int) ((10 : Nat) ^ frac.length)

/-- Suffix alternations of the five magnitude patterns, in source order. -/
def croreSfx : List (List Char × Option Char) :=
  [("crore".data, some 's'), ("cr".data, some '.')]

def lakhSfx : List (List Char × Option Char) :=
  [("lakh".data, some 's'), ("lakh".data, none)]

def thousandSfx : List (List Char × Option Char) :=
  [("thousand".data, some 's'), ("k".data, none)]

def millionSfx : List (List Char × Option Char) :=
  [("million".data, some 's'), ("mn".data, some '.')]

def billionSfx : List (List Char × Option Char) :=
  [("billion".data, some 's'), ("bn".data, some '.')]

/-- `utils.extract_numbers_from_text`. -/
def extract_numbers_from_text (text : String) : List ℚ :=
  let cs := text.data
  let n := cs.length
  ((scanMag croreSfx n cs).map parseCap) ++
  ((scanMag lakhSfx n cs).map parseCap) ++
  ((scanMag thousandSfx n cs).map parseCap) ++
  ((scanMag millionSfx n cs).map parseCap) ++
  ((scanMag billionSfx n cs).map parseCap) ++
  ((scanCur '₹' n cs).map parseCap) ++
  ((scanCur '$' n cs).map parseCap)

/-- The percentage pattern `(\d+(?:\.\d+)?)\s*(?:%|percent|per cent)` from
`analyzer.extract_financial_info`, alternation in source order. -/
def percentSfx : List (List Char × Option Char) :=
  [("%".data, none), ("percent".data, none), ("per cent".data, none)]

/-! ### Data model

Python dict-shaped records become structures; a key that may be absent
becomes an `Option` field.  `published_date` is modelled as the age of the
article in days at analysis time (the only way the code ever consumes it:
`(datetime.now() - pub_date).days`), an integer that may be negative for
future-dated articles. -/

/-- An input article record (scraper output shape). -/
structure Article where
  title : Option String := none
  content : Option String := none
  description : Option String := none
  summary : Option String := none
  source : Option String := none
  url : Option String := none
  link : Option String := none
  published_date : Option Int := none
deriving Repr, DecidableEq

/-- One row of the company lookup table (`symbol`, `company_name`);
a missing value is modelled by `""`, matching `row.get(..., '')`. -/
structure CompanyRow where
  symbol : String := ""
  company_name : String := ""
deriving Repr, DecidableEq

/-- A company match produced by `match_companies`. -/
structure CompanyMatch where
  symbol : String
  company_name : String
  matched_variant : String
  confidence : ℚ
deriving Repr, DecidableEq

/-- The `keywords_found` mapping of `extract_investment_keywords`. -/
structure KeywordsFound where
  positive : List String := []
  negative : List String := []
  neutral : List String := []
deriving Repr, DecidableEq

/-- The dictionary returned by `NewsAnalyzer.analyze_article` /
`batch_analyze_articles`.  Keys that are only present on some paths are
`Option` fields (`none` = key absent). -/
structure Analysis where
  article_id : String := ""
  title : String := ""
  source : String := ""
  url : String := ""
  published_date : Option Int := none
  error : Option String := none
  content_length : Option Nat := none
  sentiment_score : Option ℚ := none
  sentiment_subjectivity : Option ℚ := none
  sentiment_label : Option String := none
  positive_sentences : Option Nat := none
  negative_sentences : Option Nat := none
  neutral_sentences : Option Nat := none
  sentence_sentiments : Option (List ℚ) := none
  keywords_found : Option KeywordsFound := none
  keyword_density : Option ℚ := none
  total_investment_keywords : Option Nat := none
  matched_companies : Option (List CompanyMatch) := none
  company_count : Option Nat := none
  financial_numbers : Option (List ℚ) := none
  percentages_mentioned : Option (List ℚ) := none
  financial_terms : Option (List String) := none
  financial_density : Option ℚ := none
  investment_score : Option ℚ := none
  impact_category : Option String := none
  relevance_score : Option ℚ := none
deriving Repr, DecidableEq

/-! ### `utils.categorize_news_impact` and `utils.calculate_investment_score` -/

/-- `utils.categorize_news_impact`. -/
def categorize_news_impact (keywords_found : KeywordsFound) (sentiment_score : ℚ) : String :=
  let positive_count := keywords_found.positive.length
  let negative_count := keywords_found.negative.length
  if positive_count > negative_count ∧ sentiment_score > mkRat 1 10 then "Highly Positive"
  else if positive_count > 0 ∧ sentiment_score > mkRat 5 100 then "Positive"
  else if negative_count > positive_count ∧ sentiment_score < mkRat (-1) 10 then "Highly Negative"
  else if negative_count > 0 ∧ sentiment_score < mkRat (-5) 100 then "Negative"
  else "Neutral"

/-- The trusted-source list of `calculate_investment_score`. -/
def credible_sources : List String :=
  ["economic times", "business standard", "mint", "moneycontrol"]

/-- `utils.calculate_investment_score`.  The per-category keyword loop is a
sum, written out category by category (the dict preserves insertion order
`positive, negative, neutral`; addition order does not change the exact
rational sum). -/
def calculate_investment_score (article_data : Analysis) : ℚ :=
  let sentiment := article_data.sentiment_score.getD 0
  let s1 := qmul (qabs sentiment) (mkRat 4 10)
  let kf := article_data.keywords_found.getD {}
  let keyword_score :=
    qadd (qadd (qmul ((kf.positive.length : ℕ) : ℚ) (mkRat 1 10))
               (qmul ((kf.negative.length : ℕ) : ℚ) (mkRat 1 10)))
         (qmul ((kf.neutral.length : ℕ) : ℚ) (mkRat 5 100))
  let s2 := qadd s1 (qmin keyword_score (mkRat 3 10))
  let s3 := qadd s2 (match article_data.published_date with
    | some days_old => qmul (qmax 0 (qdiv (((7 - days_old : Int)) : ℚ) 7)) (mkRat 2 10)
    | none => 0)
  let s4 := qadd s3
    (if credible_sources.any (fun cs => pyIn cs (lowerStr article_data.source)) then mkRat 1 10
     else 0)
  qmin s4 1

/-! ### `analyzer.NewsAnalyzer` keyword data

`INVESTMENT_KEYWORDS` from `config.py` plus the in-place extensions
performed in `NewsAnalyzer.__init__`. -/

def positive_keywords : List String :=
  ["new project", "expansion", "investment", "acquisition", "merger",
   "contract", "order", "partnership", "launch", "growth", "profit",
   "revenue increase", "earnings beat", "dividend", "buyback",
   "capacity expansion", "new facility", "joint venture", "collaboration",
   "funding", "ipo", "listing", "upgraded", "outperform", "buy rating",
   "tie-up", "agreement", "approval", "license", "patent", "innovation",
   "technology", "digital transformation", "renewable energy", "green",
   "sustainable", "export", "international expansion"] ++
  ["breakthrough", "milestone", "success", "achievement", "win",
   "record", "strong performance", "beat expectations", "exceed",
   "surge", "rally", "boost", "positive outlook", "optimistic",
   "upgrade", "recommend", "target price", "bull", "momentum"]

def negative_keywords : List String :=
  ["loss", "decline", "fall", "drop", "downgrade", "sell rating",
   "bankruptcy", "debt", "lawsuit", "fine", "penalty", "investigation",
   "scandal", "fraud", "closure", "layoff", "restructuring", "warning",
   "miss", "disappointing", "weak", "poor performance", "regulatory action",
   "suspension", "delisting", "default", "impairment", "write-off"] ++
  ["bear", "pessimistic", "concern", "worry", "risk", "threat",
   "challenge", "struggle", "disappointing", "miss estimates",
   "cut", "reduce", "lower", "below expectations", "uncertainty"]

def neutral_keywords : List String :=
  ["announcement", "statement", "results", "quarterly", "annual",
   "meeting", "conference", "presentation", "update", "report",
   "guidance", "outlook", "forecast", "management change", "appointment"]

/-- `ANALYSIS_CONFIG['min_article_length']`. -/
def min_article_length : Nat := 100

/-- `ANALYSIS_CONFIG['relevance_threshold']`. -/
def relevance_threshold : ℚ := mkRat 3 10

/-! ### `analyzer.NewsAnalyzer` methods -/

/-- `NewsAnalyzer._extract_text_content`: concatenate the non-empty fields
among `content`, `description`, `summary`, `title` (in that order),
space-joined and stripped (`if field in article and article[field]` skips
both missing keys and empty values). -/
def extract_text_content (a : Article) : String :=
  let parts := [a.content, a.description, a.summary, a.title].filterMap
    (fun f => match f with
      | some s => if s ≠ "" then some s else none
      | none => none)
  pyStrip (joinSp parts)

/-- `NewsAnalyzer._get_sentiment_label`. -/
def get_sentiment_label (polarity : ℚ) : String :=
  if polarity > mkRat 1 10 then "Positive"
  else if polarity < mkRat (-1) 10 then "Negative"
  else "Neutral"

/-- Result of the external sentiment estimator (TextBlob + nltk):
document polarity and subjectivity, plus the per-sentence polarities of the
sentences with more than 3 words.  The estimator is a parameter of the
analysis; its exceptions are the `Except.error` case. -/
structure SentimentOutcome where
  polarity : ℚ
  subjectivity : ℚ
  sentence_polarities : List ℚ := []
deriving Repr, DecidableEq

/-- The dictionary returned by `NewsAnalyzer.analyze_sentiment` (the
sentence-count keys are absent on the failure path). -/
structure SentimentResult where
  sentiment_score : ℚ
  sentiment_subjectivity : ℚ
  sentiment_label : String
  positive_sentences : Option Nat
  negative_sentences : Option Nat
  neutral_sentences : Option Nat
  sentence_sentiments : Option (List ℚ)
  error : Option String
deriving Repr, DecidableEq

/-- `NewsAnalyzer.analyze_sentiment`: the `try` body on estimator success,
the `except` handler (neutral defaults plus the error string) on failure. -/
def analyze_sentiment (estimator : String → Except String SentimentOutcome)
    (text : String) : SentimentResult :=
  match estimator text with
  | .ok o =>
    let pos := (o.sentence_polarities.filter (fun s => s > mkRat 1 10)).length
    let neg := (o.sentence_polarities.filter (fun s => s < mkRat (-1) 10)).length
    { sentiment_score := o.polarity
      sentiment_subjectivity := o.subjectivity
      sentiment_label := get_sentiment_label o.polarity
      positive_sentences := some pos
      negative_sentences := some neg
      neutral_sentences := some (o.sentence_polarities.length - pos - neg)
      sentence_sentiments := some o.sentence_polarities
      error := none }
  | .error e =>
    { sentiment_score := 0
      sentiment_subjectivity := 0
      sentiment_label := "Neutral"
      positive_sentences := none
      negative_sentences := none
      neutral_sentences := none
      sentence_sentiments := none
      error := some e }

/-- Keywords of one category matched in the lowering of the text, in list
order, deduplicated (`list(set(...))`, see `dedupSet`). -/
def matchedKw (text_lower : String) (kws : List String) : List String :=
  dedupSet (kws.filter (fun kw => pyIn (lowerStr kw) text_lower))

/-- The dictionary returned by `NewsAnalyzer.extract_investment_keywords`. -/
structure KeywordsResult where
  keywords_found : KeywordsFound
  keyword_density : ℚ
  total_investment_keywords : Nat
deriving Repr, DecidableEq

/-- `NewsAnalyzer.extract_investment_keywords`. -/
def extract_investment_keywords (text : String) : KeywordsResult :=
  let text_lower := lowerStr text
  let kf : KeywordsFound :=
    { positive := matchedKw text_lower positive_keywords
      negative := matchedKw text_lower negative_keywords
      neutral := matchedKw text_lower neutral_keywords }
  let total_words := (pyTokens text).length
  let total_keywords := kf.positive.length + kf.negative.length + kf.neutral.length
  { keywords_found := kf
    keyword_density :=
      if total_words > 0 then qdiv ((total_keywords : ℕ) : ℚ) ((total_words : ℕ) : ℚ) else 0
    total_investment_keywords := total_keywords }

/-- The context-word list of `_calculate_match_confidence`. -/
def context_words_list : List String :=
  ["company", "limited", "ltd", "corporation", "inc", "announces", "reports"]

/-- The stop-word list of `_calculate_match_confidence`. -/
def common_words_list : List String :=
  ["the", "and", "or", "in", "on", "at", "to", "for", "of", "with"]

/-- `NewsAnalyzer._get_words_around_match` (`window = 10` at the call
site): all words in a `±window` slice around every word containing the
match string. -/
def get_words_around_match (text matchStr : String) (window : Nat) : List String :=
  let words := pyTokens text
  let match_positions := (words.enum.filter (fun p => pyIn matchStr p.2)).map (fun p => p.1)
  match_positions.foldl
    (fun acc pos => acc ++ ((words.drop (pos - window)).take (pos + window + 1 - (pos - window))))
    []

/-- The body of `NewsAnalyzer._calculate_match_confidence` with the context
window passed explicitly (the per-context-word `+= 0.1` loop is the count
of found context words times `0.1`). -/
def confidence_with_window (text variant full_name : String)
    (words_around : List String) : ℚ :=
  let text_lower := lowerStr text
  let variant_lower := lowerStr variant
  let c1 := if pyIn variant_lower text_lower then mkRat 4 10 else 0
  let c2 := qadd c1 (if pyIn (lowerStr full_name) text_lower then mkRat 3 10 else 0)
  let c3 := qadd c2
    (qmul (((context_words_list.filter (fun w => words_around.contains w)).length : ℕ) : ℚ)
      (mkRat 1 10))
  let c4 := qsub c3 (if common_words_list.contains variant_lower then mkRat 5 10 else 0)
  qmin c4 1

/-- `NewsAnalyzer._calculate_match_confidence`. -/
def calculate_match_confidence (text variant full_name : String) : ℚ :=
  confidence_with_window text variant full_name
    (get_words_around_match (lowerStr text) (lowerStr variant) 10)

/-- The inner variant loop of `NewsAnalyzer.match_companies` for one
company: scan the variants in order; on a substring hit compute the
confidence; append-and-`break` only when the confidence exceeds `0.3`,
otherwise keep scanning. -/
def scan_variants (text symbol company_name : String) : List String → Option CompanyMatch
  | [] => none
  | v :: rest =>
    if v.length > 2 ∧ pyIn (lowerStr v) (lowerStr text) then
      let confidence := calculate_match_confidence text v company_name
      if confidence > mkRat 3 10 then
        some { symbol := symbol, company_name := company_name,
               matched_variant := v, confidence := confidence }
      else scan_variants text symbol company_name rest
    else scan_variants text symbol company_name rest

/-- The symbol-keyed dict accumulation of `match_companies`: keep insertion
order, replace only on strictly greater confidence. -/
def upsertBySymbol (m : CompanyMatch) : List CompanyMatch → List CompanyMatch
  | [] => [m]
  | x :: t =>
    if x.symbol = m.symbol then
      (if m.confidence > x.confidence then m :: t else x :: t)
    else x :: upsertBySymbol m t

/-- Stable insertion used by `sortD` (descending by key; an element is
inserted before the first element with key `≤` its own, so equal keys keep
their original order — the defining property of Python's stable
`sort(..., reverse=True)`). -/
def insertD {α : Type} (k : α → ℚ) (a : α) : List α → List α
  | [] => [a]
  | b :: t => if k b ≤ k a then a :: b :: t else b :: insertD k a t

/-- Model of Python's stable descending sort by a rational key. -/
def sortD {α : Type} (k : α → ℚ) (l : List α) : List α := l.foldr (insertD k) []

/-- The dictionary returned by `NewsAnalyzer.match_companies`. -/
structure MatchCompaniesResult where
  matched_companies : List CompanyMatch
  company_count : Nat
deriving Repr, DecidableEq

/-- `NewsAnalyzer.match_companies`. -/
def match_companies (text : String) (companies : List CompanyRow) : MatchCompaniesResult :=
  let matched := companies.filterMap (fun row =>
    if row.company_name = "" then none
    else
      scan_variants text row.symbol row.company_name
        (extract_company_variants row.company_name ++
          (if row.symbol ≠ "" then [row.symbol] else [])))
  let unique := matched.foldl (fun acc m => upsertBySymbol m acc) []
  let sorted := sortD (fun m => m.confidence) unique
  { matched_companies := sorted.take 5
    company_count := sorted.length }

/-- The fixed financial vocabulary of `extract_financial_info`. -/
def financial_terms_list : List String :=
  ["revenue", "profit", "loss", "earnings", "ebitda", "dividend",
   "market cap", "valuation", "investment", "funding", "debt",
   "cash flow", "assets", "liabilities", "equity", "roe", "roa",
   "pe ratio", "eps", "book value", "sales", "growth"]

/-- The dictionary returned by `NewsAnalyzer.extract_financial_info`. -/
structure FinancialInfo where
  financial_numbers : List ℚ
  percentages_mentioned : List ℚ
  financial_terms : List String
  financial_density : ℚ
deriving Repr, DecidableEq

/-- `NewsAnalyzer.extract_financial_info`.  The density is
`len(financial_mentions) / len(text.split()) if text else 0`: the guard
tests the string, not the token count, so a nonempty all-whitespace text
reaches the division with a zero divisor — a `ZeroDivisionError`, modelled
as the `Except.error` case. -/
def extract_financial_info (text : String) : Except String FinancialInfo :=
  let numbers := extract_numbers_from_text text
  let percentages := (scanMag percentSfx text.data.length text.data).map parseCap
  let text_lower := lowerStr text
  let financial_mentions := financial_terms_list.filter (fun t => pyIn t text_lower)
  if text = "" then
    .ok { financial_numbers := numbers, percentages_mentioned := percentages,
          financial_terms := financial_mentions, financial_density := 0 }
  else
    let total_words := (pyTokens text).length
    if total_words = 0 then .error "ZeroDivisionError"
    else
      .ok { financial_numbers := numbers, percentages_mentioned := percentages,
            financial_terms := financial_mentions,
            financial_density :=
              qdiv ((financial_mentions.length : ℕ) : ℚ) ((total_words : ℕ) : ℚ) }

/-- `NewsAnalyzer._calculate_relevance_score`. -/
def calculate_relevance_score (analysis : Analysis) : ℚ :=
  let s1 := qmin (qmul ((analysis.total_investment_keywords.getD 0 : ℕ) : ℚ) (mkRat 5 100))
    (mkRat 3 10)
  let s2 := qadd s1 (qmul (qabs (analysis.sentiment_score.getD 0)) (mkRat 25 100))
  let s3 := qadd s2
    (qmin (qmul ((analysis.company_count.getD 0 : ℕ) : ℚ) (mkRat 1 10)) (mkRat 2 10))
  let s4 := qadd s3 (qmul (analysis.financial_density.getD 0) (mkRat 15 100))
  let s5 := qadd s4
    (qmul (qmin (qdiv ((analysis.content_length.getD 0 : ℕ) : ℚ) 1000) 1) (mkRat 1 10))
  qmin s5 1

/-- `NewsAnalyzer.analyze_article`, parameterised by the external sentiment
estimator.  The only exception that can escape (the `ZeroDivisionError` of
`extract_financial_info`) propagates as `Except.error`; every returned
dictionary is an `Except.ok`. -/
def analyze_article (estimator : String → Except String SentimentOutcome)
    (article : Article) (companies : Option (List CompanyRow)) : Except String Analysis :=
  let base : Analysis :=
    { article_id := article.url.getD (article.link.getD "")
      title := article.title.getD ""
      source := article.source.getD ""
      url := article.url.getD (article.link.getD "")
      published_date := article.published_date }
  let content := extract_text_content article
  if content = "" ∨ content.length < min_article_length then
    .ok { base with error := some "Insufficient content" }
  else
    let s := analyze_sentiment estimator content
    let k := extract_investment_keywords content
    let comp := companies.map (match_companies content)
    match extract_financial_info content with
    | .error e => .error e
    | .ok fin =>
      let a1 : Analysis :=
        { base with
          content_length := some content.length
          sentiment_score := some s.sentiment_score
          sentiment_subjectivity := some s.sentiment_subjectivity
          sentiment_label := some s.sentiment_label
          positive_sentences := s.positive_sentences
          negative_sentences := s.negative_sentences
          neutral_sentences := s.neutral_sentences
          sentence_sentiments := s.sentence_sentiments
          error := s.error
          keywords_found := some k.keywords_found
          keyword_density := some k.keyword_density
          total_investment_keywords := some k.total_investment_keywords
          matched_companies := comp.map (fun c => c.matched_companies)
          company_count := comp.map (fun c => c.company_count)
          financial_numbers := some fin.financial_numbers
          percentages_mentioned := some fin.percentages_mentioned
          financial_terms := some fin.financial_terms
          financial_density := some fin.financial_density }
      let a2 : Analysis :=
        { a1 with
          investment_score := some (calculate_investment_score a1)
          impact_category := some (categorize_news_impact (a1.keywords_found.getD {})
            (a1.sentiment_score.getD 0)) }
      .ok { a2 with relevance_score := some (calculate_relevance_score a2) }

/-- The `except` handler of `batch_analyze_articles`: the minimal
error-marked record built for article number `i` (0-based). -/
def batchErrorRecord (i : Nat) (article : Article) (e : String) : Analysis :=
  { article_id := article.url.getD (article.link.getD ("article_" ++ toString i))
    error := some e
    title := article.title.getD ""
    source := article.source.getD "" }

/-- The per-article step of `batch_analyze_articles`: the analysis result,
or the minimal error record when analysing raises. -/
def batchStep (analyze : Article → Except String Analysis) (i : Nat)
    (article : Article) : Analysis :=
  match analyze article with
  | .ok r => r
  | .error e => batchErrorRecord i article e

/-- Worker for `batch_analyze_articles`. -/
def batchGo (analyze : Article → Except String Analysis) : Nat → List Article → List Analysis
  | _, [] => []
  | i, a :: rest => batchStep analyze i a :: batchGo analyze (i+1) rest

/-- `NewsAnalyzer.batch_analyze_articles`, parameterised by the per-article
analysis function (in the source, `self.analyze_article` plus whatever the
runtime environment may raise inside it). -/
def batch_analyze_articles (analyze : Article → Except String Analysis)
    (articles : List Article) : List Analysis :=
  batchGo analyze 0 articles

/-- `NewsAnalyzer.filter_relevant_articles` (the `min_relevance` default of
`ANALYSIS_CONFIG['relevance_threshold']` is passed explicitly). -/
def filter_relevant_articles (min_relevance : ℚ) (analyzed_articles : List Analysis) :
    List Analysis :=
  sortD (fun a => a.relevance_score.getD 0)
    (analyzed_articles.filter (fun a => a.relevance_score.getD 0 ≥ min_relevance))

/-! ### `scraper.NewsAggregator._remove_duplicate_articles` -/

/-- The inline Jaccard similarity of `_remove_duplicate_articles`:
`len(set(a) & set(b)) / len(set(a) | set(b))` over whitespace tokens.
(The divisor is zero only when both titles have no tokens, which the
caller excludes by skipping empty stripped titles; `qdiv _ 0 = 0` here.) -/
def title_similarity (t s : String) : ℚ :=
  let a := dedupSet (pyTokens t)
  let b := dedupSet (pyTokens s)
  let inter := (a.filter (fun w => b.contains w)).length
  let union := (dedupSet (a ++ b)).length
  qdiv ((inter : ℕ) : ℚ) ((union : ℕ) : ℚ)

/-- Worker for `remove_duplicate_articles`; `seen` holds the lower-cased,
stripped titles of the articles kept so far, in order. -/
def removeDupGo (seen : List String) : List Article → List Article
  | [] => []
  | a :: rest =>
    let t := pyStrip (lowerStr (a.title.getD ""))
    if t = "" then removeDupGo seen rest
    else if seen.any (fun s => title_similarity t s > mkRat 7 10) then removeDupGo seen rest
    else a :: removeDupGo (seen ++ [t]) rest

/-- `NewsAggregator._remove_duplicate_articles`. -/
def remove_duplicate_articles (articles : List Article) : List Article :=
  removeDupGo [] articles

/-! ### Claim-side reference definitions and concrete inputs -/

/-- The claim's description of `ImpactCategory` (C6): branch chain over the
positive / negative match counts, first matching branch wins. -/
def impact_category_claimed (P N : Nat) (score : ℚ) : String :=
  if P > N ∧ score > mkRat 1 10 then "Highly Positive"
  else if P > 0 ∧ score > mkRat 5 100 then "Positive"
  else if N > P ∧ score < mkRat (-1) 10 then "Highly Negative"
  else if N > 0 ∧ score < mkRat (-5) 100 then "Negative"
  else "Neutral"

/-- The claim's description of `Deduplicate` (C10): keep an article iff its
lower-cased stripped title is non-empty and has Jaccard similarity at most
`0.7` to every previously kept title. -/
def dedupSpecGo (kept : List String) : List Article → List Article
  | [] => []
  | a :: rest =>
    let t := pyStrip (lowerStr (a.title.getD ""))
    if t ≠ "" ∧ (∀ s ∈ kept, title_similarity t s ≤ mkRat 7 10) then
      a :: dedupSpecGo (kept ++ [t]) rest
    else dedupSpecGo kept rest

/-- The claim's description of the variant scan (C4): stop at the FIRST
substring hit, regardless of its confidence (keeping the match only if its
confidence exceeds the `0.3` threshold). -/
def scan_variants_claimed (text symbol company_name : String) : List String → Option CompanyMatch
  | [] => none
  | v :: rest =>
    if v.length > 2 ∧ pyIn (lowerStr v) (lowerStr text) then
      (if calculate_match_confidence text v company_name > mkRat 3 10 then
        some { symbol := symbol, company_name := company_name,
               matched_variant := v, confidence := calculate_match_confidence text v company_name }
       else none)
    else scan_variants_claimed text symbol company_name rest

/-- `match_companies` as claim C4 describes it (first-hit short-circuit). -/
def match_companies_claimed (text : String) (companies : List CompanyRow) :
    MatchCompaniesResult :=
  let matched := companies.filterMap (fun row =>
    if row.company_name = "" then none
    else
      scan_variants_claimed text row.symbol row.company_name
        (extract_company_variants row.company_name ++
          (if row.symbol ≠ "" then [row.symbol] else [])))
  let unique := matched.foldl (fun acc m => upsertBySymbol m acc) []
  let sorted := sortD (fun m => m.confidence) unique
  { matched_companies := sorted.take 5
    company_count := sorted.length }

/-- The amended behaviour of the variant scan (C4): the recorded match is
built from the first variant that is a hit AND clears the `0.3` confidence
threshold; low-confidence hits do not stop the scan. -/
def first_accepted_variant (text symbol company_name : String) (variants : List String) :
    Option CompanyMatch :=
  (variants.find? (fun v => decide (v.length > 2) && pyIn (lowerStr v) (lowerStr text) &&
      decide (calculate_match_confidence text v company_name > mkRat 3 10))).map
    (fun v => { symbol := symbol, company_name := company_name, matched_variant := v,
                confidence := calculate_match_confidence text v company_name })

/-- A content-only article whose text is long enough to pass the length
check and matches no keyword (120 copies of `z`); used to exhibit the
recovered-sentiment-failure path of C1. -/
def c1Article : Article :=
  { content := some "zzzzzzzzzzzzzzzzzzzzzzzzzzzzzzzzzzzzzzzzzzzzzzzzzzzzzzzzzzzzzzzzzzzzzzzzzzzzzzzzzzzzzzzzzzzzzzzzzzzzzzzzzzzzzzzzzzzzzzzz" }

/-- The sample article of `demo.py` (first entry of `sample_articles`),
whose content holds `Rs 75,000 crores` and whose title holds `₹75,000
crore`; the spec's end-to-end sample (C2).  `published_date = some 0`
models `datetime.now()` (zero days old). -/
def demoArticle : Article :=
  { title := some "Reliance Industries announces ₹75,000 crore investment in renewable energy projects"
    content := some "Reliance Industries Limited has announced a massive investment of Rs 75,000 crores in renewable energy projects over the next 3 years. The company plans to set up solar manufacturing facilities and expand its green energy portfolio. This strategic move aligns with India\x27s carbon neutrality goals and is expected to boost RIL\x27s long-term growth prospects. Market analysts have upgraded their rating for the stock."
    source := some "Economic Times"
    url := some "https://economictimes.indiatimes.com/sample1"
    published_date := some 0 }

/-- The company table row of claim C2. -/
def rilRow : CompanyRow := { symbol := "RIL", company_name := "Reliance Industries" }

/-- A sentiment estimator returning fixed values (the claim's stand-in for
TextBlob, which is external to the repository). -/
def c2Estimator (p subj : ℚ) (ss : List ℚ) : String → Except String SentimentOutcome :=
  fun _ => .ok { polarity := p, subjectivity := subj, sentence_polarities := ss }

/-- The analysis record produced on the sample article of C2. -/
def c2Record (p subj : ℚ) (ss : List ℚ) : Analysis :=
  match analyze_article (c2Estimator p subj ss) demoArticle (some [rilRow]) with
  | .ok r => r
  | .error _ => {}

/-! ### General lemmas -/

theorem length_filter_mono {α : Type} {l : List α} {p q : α → Bool}
    (h : ∀ x ∈ l, p x = true → q x = true) :
    (l.filter p).length ≤ (l.filter q).length := by
  induction l with
  | nil => simp
  | cons a t ih =>
    have ih' := ih (fun x hx hp => h x (List.mem_cons_of_mem a hx) hp)
    by_cases hp : p a = true
    · rw [List.filter_cons_of_pos hp, List.filter_cons_of_pos (h a (List.mem_cons_self a t) hp)]
      simpa using ih'
    · rw [List.filter_cons_of_neg (by simpa using hp)]
      by_cases hq : q a = true
      · rw [List.filter_cons_of_pos hq]
        exact le_trans ih' (Nat.le_succ _)
      · rw [List.filter_cons_of_neg (by simpa using hq)]
        exact ih'

theorem mem_insertD {α : Type} (k : α → ℚ) (a x : α) (l : List α) :
    x ∈ insertD k a l ↔ x = a ∨ x ∈ l := by
  induction l with
  | nil => simp [insertD]
  | cons b t ih =>
    rw [insertD]
    split
    · simp
    · simp only [List.mem_cons, ih]
      tauto

theorem mem_sortD {α : Type} (k : α → ℚ) (x : α) (l : List α) :
    x ∈ sortD k l ↔ x ∈ l := by
  induction l with
  | nil => simp [sortD]
  | cons a t ih =>
    show x ∈ insertD k a (sortD k t) ↔ _
    rw [mem_insertD, ih]
    simp

theorem pairwise_insertD {α : Type} (k : α → ℚ) (a : α) {l : List α}
    (h : l.Pairwise (fun x y => k y ≤ k x)) :
    (insertD k a l).Pairwise (fun x y => k y ≤ k x) := by
  induction l with
  | nil => simp [insertD]
  | cons b t ih =>
    rw [insertD]
    rcases h with - | ⟨hb, ht⟩
    split
    · refine List.Pairwise.cons ?_ (List.Pairwise.cons hb ht)
      intro y hy
      rcases List.mem_cons.mp hy with rfl | hyt
      · assumption
      · exact le_trans (hb y hyt) (by assumption)
    · refine List.Pairwise.cons ?_ (ih ht)
      intro y hy
      rcases (mem_insertD k a y t).mp hy with rfl | hyt
      · exact le_of_lt (lt_of_not_le (by assumption))
      · exact hb y hyt

theorem sortD_pairwise {α : Type} (k : α → ℚ) (l : List α) :
    (sortD k l).Pairwise (fun x y => k y ≤ k x) := by
  induction l with
  | nil => simp [sortD]
  | cons a t ih => exact pairwise_insertD k a ih

theorem sortD_eq_self {α : Type} (k : α → ℚ) {l : List α}
    (h : l.Pairwise (fun x y => k y ≤ k x)) : sortD k l = l := by
  induction l with
  | nil => rfl
  | cons a t ih =>
    rcases h with - | ⟨ha, ht⟩
    show insertD k a (sortD k t) = a :: t
    rw [ih ht]
    cases t with
    | nil => rfl
    | cons b t2 =>
      rw [insertD, if_pos (ha b (List.mem_cons_self b t2))]

/-- Head of `dropWhile` does not satisfy the predicate. -/
theorem dropWhile_head?_not {α : Type} (p : α → Bool) (l : List α) :
    ∀ a, (l.dropWhile p).head? = some a → p a = false := by
  induction l with
  | nil => simp [List.dropWhile]
  | cons b t ih =>
    intro a
    rw [List.dropWhile]
    by_cases hb : p b = true
    · rw [hb]
      exact ih a
    · rw [Bool.of_not_eq_true hb]
      intro h
      cases h
      simpa using hb

/-- `dropTrail` is a prefix: the original list extends it on the right. -/
theorem dropTrail_append (p : Char → Bool) (l : List Char) :
    l = dropTrail p l ++ (l.reverse.takeWhile p).reverse := by
  rw [dropTrail]
  conv_lhs => rw [← List.reverse_reverse l, ← List.takeWhile_append_dropWhile (p := p) (l := l.reverse)]
  rw [List.reverse_append]

theorem dropTrail_head? (p : Char → Bool) (l : List Char) (h : dropTrail p l ≠ []) :
    (dropTrail p l).head? = l.head? := by
  conv_rhs => rw [dropTrail_append p l]
  rcases hd : dropTrail p l with - | ⟨c, t⟩
  · exact absurd hd h
  · simp

/-- A stripped nonempty string starts with a non-whitespace character. -/
theorem stripChars_head (cs : List Char) (h : stripChars cs ≠ []) :
    ∃ c t, stripChars cs = c :: t ∧ isWs c = false := by
  rcases hd : stripChars cs with - | ⟨c, t⟩
  · exact absurd hd h
  · refine ⟨c, t, rfl, ?_⟩
    have h1 : (stripChars cs).head? = some c := by rw [hd]; rfl
    rw [stripChars, dropTrail_head? isWs _ (by rw [← stripChars, hd]; simp)] at h1
    exact dropWhile_head?_not isWs cs c h1

/-- A nonempty stripped string has at least one whitespace token. -/
theorem pyTokens_pyStrip_ne_nil (s : String) (h : pyStrip s ≠ "") :
    pyTokens (pyStrip s) ≠ [] := by
  have hne : stripChars s.data ≠ [] := by
    intro hcon
    apply h
    rw [pyStrip, hcon]
  obtain ⟨c, t, hct, hc⟩ := stripChars_head s.data hne
  rw [pyTokens, pyStrip]
  show pyTokensGo (stripChars s.data).length (stripChars s.data) ≠ []
  rw [hct]
  simp [pyTokensGo, hc]

/-- The extracted content of an article, when non-empty, always has at
least one whitespace token (it is a stripped string). -/
theorem tokens_of_content_ne (article : Article) (h : extract_text_content article ≠ "") :
    pyTokens (extract_text_content article) ≠ [] :=
  pyTokens_pyStrip_ne_nil _ h

/-! ### Claim C1 -/

set_option maxRecDepth 200000 in
/-- Counterexample to claim C1: when the sentiment estimator fails on a
long-enough article, `analyze_article` returns a record that carries BOTH
the recovered error marker and all three derived score fields — the
claimed invariant "`error` never coexists with derived scores" is false on
the sentiment-extraction error path. -/
theorem c1_counterexample :
    ∃ r, analyze_article (fun _ => Except.error "boom") c1Article none = .ok r ∧
      r.error = some "boom" ∧ r.investment_score.isSome = true ∧
      r.relevance_score.isSome = true ∧ r.impact_category.isSome = true :=
  ⟨_, rfl, rfl, rfl, rfl, rfl⟩

/-- C1 (amended): an Analysis rejected for insufficient content carries the
error marker and no derived scores; but an Analysis whose sentiment
extraction failed and was recovered locally carries the error marker
together with all three derived scores (computed from the neutral
defaults), so callers must distinguish the two error kinds. -/
theorem c1_error_paths :
    (∀ (est : String → Except String SentimentOutcome) (article : Article)
       (companies : Option (List CompanyRow)),
       (extract_text_content article = "" ∨
         (extract_text_content article).length < min_article_length) →
       ∃ r, analyze_article est article companies = .ok r ∧
         r.error = some "Insufficient content" ∧ r.investment_score = none ∧
         r.relevance_score = none ∧ r.impact_category = none) ∧
    (∀ (est : String → Except String SentimentOutcome) (article : Article)
       (companies : Option (List CompanyRow)) (e : String),
       extract_text_content article ≠ "" →
       ¬ (extract_text_content article).length < min_article_length →
       est (extract_text_content article) = .error e →
       ∃ r, analyze_article est article companies = .ok r ∧ r.error = some e ∧
         r.investment_score.isSome = true ∧ r.relevance_score.isSome = true ∧
         r.impact_category.isSome = true) := by
  constructor
  · intro est article companies h
    simp only [analyze_article]
    rw [if_pos h]
    exact ⟨_, rfl, rfl, rfl, rfl, rfl⟩
  · intro est article companies e h1 h2 h3
    obtain ⟨fi, hfi⟩ : ∃ fi, extract_financial_info (extract_text_content article) = .ok fi := by
      simp only [extract_financial_info]
      rw [if_neg h1]
      rw [if_neg (by simpa [List.length_eq_zero] using tokens_of_content_ne article h1)]
      exact ⟨_, rfl⟩
    simp only [analyze_article]
    rw [if_neg (not_or.mpr ⟨h1, h2⟩), hfi]
    refine ⟨_, rfl, ?_, rfl, rfl, rfl⟩
    show (analyze_sentiment est (extract_text_content article)).error = some e
    rw [analyze_sentiment, h3]

set_option maxRecDepth 200000 in
/-- Witness for C1: both branches of `c1_error_paths` applied to concrete
inputs. -/
theorem c1_error_paths_witness :
    (∃ r, analyze_article (fun _ => Except.error "boom")
        ({ content := some "short" } : Article) none = .ok r ∧
      r.error = some "Insufficient content" ∧ r.investment_score = none ∧
      r.relevance_score = none ∧ r.impact_category = none) ∧
    (∃ r, analyze_article (fun _ => Except.error "boom") c1Article none = .ok r ∧
      r.error = some "boom" ∧ r.investment_score.isSome = true ∧
      r.relevance_score.isSome = true ∧ r.impact_category.isSome = true) :=
  ⟨c1_error_paths.1 (fun _ => Except.error "boom") { content := some "short" } none
      (Or.inr (by decide)),
   c1_error_paths.2 (fun _ => Except.error "boom") c1Article none "boom"
      (by decide) (by decide) rfl⟩

/-! ### Claim C2 -/

/-- With more positive than negative matches and a sentiment above `0.1`,
the impact category is `Highly Positive`. -/
theorem categorize_highly_positive (kf : KeywordsFound) (p : ℚ)
    (h7 : kf.negative.length < kf.positive.length) (hp : p > mkRat 1 10) :
    categorize_news_impact kf p = "Highly Positive" := if_pos ⟨h7, hp⟩

set_option maxRecDepth 1000000 in
set_option maxHeartbeats 4000000 in
/-- C2: analysing the sample article (content with `Rs 75,000 crores`,
title with `₹75,000 crore`) against a company table containing
`{symbol := RIL, company_name := Reliance Industries}`, under any
sentiment-estimator outcome whose polarity exceeds `0.1` (the premise of
the claimed label), yields `sentiment_label = "Positive"`, a match with
symbol `RIL`, `75000.0` among the financial numbers (captured by the
`₹`-pattern with the thousands separator stripped), and an impact category
in `{Positive, Highly Positive}`. -/
theorem c2_end_to_end (p subj : ℚ) (ss : List ℚ) (hp : p > mkRat 1 10) :
    ∃ r, analyze_article (c2Estimator p subj ss) demoArticle (some [rilRow]) = .ok r ∧
      r.sentiment_label = some "Positive" ∧
      ((r.matched_companies.getD []).map (fun m : CompanyMatch => m.symbol)).contains "RIL"
        = true ∧
      ((r.financial_numbers.getD []).contains ((75000 : ℤ) : ℚ)) = true ∧
      (r.impact_category = some "Positive" ∨ r.impact_category = some "Highly Positive") := by
  have hok : analyze_article (c2Estimator p subj ss) demoArticle (some [rilRow]) =
      .ok (c2Record p subj ss) := rfl
  have hlabel : (c2Record p subj ss).sentiment_label = some (get_sentiment_label p) := rfl
  have hsym : ((c2Record p subj ss).matched_companies.getD []).map
      (fun m : CompanyMatch => m.symbol) = ["RIL"] := rfl
  have hnum : (c2Record p subj ss).financial_numbers.getD [] = [0, 0, 75000] := rfl
  have himp : (c2Record p subj ss).impact_category =
      some (categorize_news_impact
        { positive := ["investment", "growth", "upgraded", "renewable energy", "green",
            "boost", "upgrade"],
          negative := [], neutral := [] } p) := rfl
  refine ⟨c2Record p subj ss, hok, ?_, ?_, ?_, ?_⟩
  · rw [hlabel, get_sentiment_label, if_pos hp]
  · rw [hsym]
    rfl
  · rw [hnum]
    decide
  · right
    rw [himp, categorize_highly_positive _ p (by decide) hp]

/-- Witness for C2: the estimator polarity `1/2` satisfies the premise and
the end-to-end conclusions follow. -/
theorem c2_end_to_end_witness :
    mkRat 1 2 > mkRat 1 10 ∧
    (∃ r, analyze_article (c2Estimator (mkRat 1 2) (mkRat 1 2) []) demoArticle
        (some [rilRow]) = .ok r ∧
      r.sentiment_label = some "Positive" ∧
      ((r.matched_companies.getD []).map (fun m : CompanyMatch => m.symbol)).contains "RIL"
        = true ∧
      ((r.financial_numbers.getD []).contains ((75000 : ℤ) : ℚ)) = true ∧
      (r.impact_category = some "Positive" ∨ r.impact_category = some "Highly Positive")) :=
  ⟨by decide, c2_end_to_end (mkRat 1 2) (mkRat 1 2) [] (by decide)⟩

/-! ### Claim C3 -/

/-- C3 (code bug): `keyword_density` is correctly guarded (`0` on the
whitespace-only text), and `financial_density` is `0` on the empty text,
but on the whitespace-only text `" "` the `if text` guard of
`extract_financial_info` passes while the token count is zero, so the code
raises `ZeroDivisionError` — the claimed totality fails there. -/
theorem c3_density_guard_eval :
    extract_financial_info " " = .error "ZeroDivisionError" ∧
    (extract_investment_keywords " ").keyword_density = 0 ∧
    extract_financial_info "" =
      .ok { financial_numbers := [], percentages_mentioned := [],
            financial_terms := [], financial_density := 0 } := ⟨rfl, rfl, rfl⟩

/-! ### Claim C4 -/

/-- Counterexample to claim C4: for the company row
`{symbol := ABCD, company_name := The}` and text `the abcd xyz`, the first
variant hit (`The`, confidence `0.2 ≤ 0.3`) does NOT stop the scan — the
code goes on to match the symbol variant `ABCD` (confidence `0.7`), while
the claimed first-hit short-circuit would record no match at all. -/
theorem c4_counterexample :
    (match_companies "the abcd xyz" [{ symbol := "ABCD", company_name := "The" }]).matched_companies ≠
      [] ∧
    (match_companies_claimed "the abcd xyz"
        [{ symbol := "ABCD", company_name := "The" }]).matched_companies = [] ∧
    match_companies "the abcd xyz" [{ symbol := "ABCD", company_name := "The" }] ≠
      match_companies_claimed "the abcd xyz" [{ symbol := "ABCD", company_name := "The" }] := by
  refine ⟨by decide, by decide, by decide⟩

/-- The variant scan records the first variant that is a hit and clears the
confidence threshold; hits at or below `0.3` are skipped and scanning
continues. -/
theorem scan_variants_eq_first_accepted (text symbol company_name : String)
    (variants : List String) :
    scan_variants text symbol company_name variants =
      first_accepted_variant text symbol company_name variants := by
  induction variants with
  | nil => rfl
  | cons v rest ih =>
    rw [scan_variants, first_accepted_variant, List.find?_cons]
    by_cases h1 : v.length > 2 ∧ pyIn (lowerStr v) (lowerStr text) = true
    · rw [if_pos h1]
      by_cases h2 : calculate_match_confidence text v company_name > mkRat 3 10
      · rw [if_pos h2]
        have hb : (decide (v.length > 2) && pyIn (lowerStr v) (lowerStr text) &&
            decide (calculate_match_confidence text v company_name > mkRat 3 10)) = true := by
          simp [h1.1, h1.2, h2]
        rw [hb]
        rfl
      · rw [if_neg h2]
        have hb : (decide (v.length > 2) && pyIn (lowerStr v) (lowerStr text) &&
            decide (calculate_match_confidence text v company_name > mkRat 3 10)) = false := by
          simp [h2]
        rw [hb]
        exact ih
    · rw [if_neg h1]
      have hb : (decide (v.length > 2) && pyIn (lowerStr v) (lowerStr text) &&
          decide (calculate_match_confidence text v company_name > mkRat 3 10)) = false := by
        rcases not_and_or.mp h1 with hl | hr
        · simp [hl]
        · simp [hr]
      rw [hb]
      exact ih

/-- C4 (amended): in company matching, for every candidate company the
recorded match is built from the FIRST variant that is longer than 2
characters, occurs case-insensitively in the text, AND whose confidence
exceeds `0.3`; a hit with confidence `≤ 0.3` does not stop the scan of the
remaining variants. -/
theorem c4_scan_until_accepted (text : String) (companies : List CompanyRow) :
    match_companies text companies =
      { matched_companies :=
          (sortD (fun m => m.confidence)
            ((companies.filterMap (fun row =>
              if row.company_name = "" then none
              else
                first_accepted_variant text row.symbol row.company_name
                  (extract_company_variants row.company_name ++
                    (if row.symbol ≠ "" then [row.symbol] else [])))).foldl
              (fun acc m => upsertBySymbol m acc) [])).take 5
        company_count :=
          (sortD (fun m => m.confidence)
            ((companies.filterMap (fun row =>
              if row.company_name = "" then none
              else
                first_accepted_variant text row.symbol row.company_name
                  (extract_company_variants row.company_name ++
                    (if row.symbol ≠ "" then [row.symbol] else [])))).foldl
              (fun acc m => upsertBySymbol m acc) [])).length } := by
  rw [match_companies]
  have hfun : (fun row : CompanyRow =>
      if row.company_name = "" then none
      else
        scan_variants text row.symbol row.company_name
          (extract_company_variants row.company_name ++
            (if row.symbol ≠ "" then [row.symbol] else []))) =
      (fun row : CompanyRow =>
      if row.company_name = "" then none
      else
        first_accepted_variant text row.symbol row.company_name
          (extract_company_variants row.company_name ++
            (if row.symbol ≠ "" then [row.symbol] else []))) := by
    funext row
    rw [scan_variants_eq_first_accepted]
  rw [hfun]

/-! ### Claim C5 -/

/-- C5: for every analysis record (arbitrary sentiment score, keyword
lists, company count, content length, publish age and source — with the
financial density nonnegative, as the pipeline always produces it as a
ratio of counts), both scores lie in `[0, 1]`. -/
theorem c5_scores_clamped (a : Analysis) (h : 0 ≤ a.financial_density.getD 0) :
    0 ≤ calculate_investment_score a ∧ calculate_investment_score a ≤ 1 ∧
    0 ≤ calculate_relevance_score a ∧ calculate_relevance_score a ≤ 1 := by
  unfold calculate_investment_score calculate_relevance_score
  simp only [qadd_eq, qmul_eq, qabs_eq, qmin_eq, qmax_eq, qdiv_eq, qsub_eq]
  have hinv : (0:ℚ) ≤
      |a.sentiment_score.getD 0| * mkRat 4 10 +
        min ((((a.keywords_found.getD {}).positive.length : ℕ) : ℚ) * mkRat 1 10 +
              (((a.keywords_found.getD {}).negative.length : ℕ) : ℚ) * mkRat 1 10 +
              (((a.keywords_found.getD {}).neutral.length : ℕ) : ℚ) * mkRat 5 100)
            (mkRat 3 10) +
        (match a.published_date with
          | some days_old => max 0 (((7 - days_old : Int) : ℚ) / 7) * mkRat 2 10
          | none => 0) +
        (if credible_sources.any (fun cs => pyIn cs (lowerStr a.source)) then mkRat 1 10
         else 0) := by
    have h1 : (0:ℚ) ≤ |a.sentiment_score.getD 0| * mkRat 4 10 :=
      mul_nonneg (abs_nonneg _) (by decide)
    have h2 : (0:ℚ) ≤ min ((((a.keywords_found.getD {}).positive.length : ℕ) : ℚ) * mkRat 1 10 +
              (((a.keywords_found.getD {}).negative.length : ℕ) : ℚ) * mkRat 1 10 +
              (((a.keywords_found.getD {}).neutral.length : ℕ) : ℚ) * mkRat 5 100)
            (mkRat 3 10) := by
      apply le_min _ (by decide)
      have := mul_nonneg (Nat.cast_nonneg (α := ℚ) (a.keywords_found.getD {}).positive.length)
        (by decide : (0:ℚ) ≤ mkRat 1 10)
      positivity
    have h3 : (0:ℚ) ≤ (match a.published_date with
          | some days_old => max 0 (((7 - days_old : Int) : ℚ) / 7) * mkRat 2 10
          | none => 0) := by
      cases a.published_date with
      | none => exact le_refl 0
      | some d => exact mul_nonneg (le_max_left 0 _) (by decide)
    have h4 : (0:ℚ) ≤ (if credible_sources.any (fun cs => pyIn cs (lowerStr a.source))
        then mkRat 1 10 else 0) := by
      split
      · decide
      · exact le_refl 0
    exact add_nonneg (add_nonneg (add_nonneg h1 h2) h3) h4
  have hrel : (0:ℚ) ≤
      min (((a.total_investment_keywords.getD 0 : ℕ) : ℚ) * mkRat 5 100) (mkRat 3 10) +
        |a.sentiment_score.getD 0| * mkRat 25 100 +
        min (((a.company_count.getD 0 : ℕ) : ℚ) * mkRat 1 10) (mkRat 2 10) +
        a.financial_density.getD 0 * mkRat 15 100 +
        min (((a.content_length.getD 0 : ℕ) : ℚ) / 1000) 1 * mkRat 1 10 := by
    have r1 : (0:ℚ) ≤ min (((a.total_investment_keywords.getD 0 : ℕ) : ℚ) * mkRat 5 100)
        (mkRat 3 10) :=
      le_min (mul_nonneg (Nat.cast_nonneg _) (by decide)) (by decide)
    have r2 : (0:ℚ) ≤ |a.sentiment_score.getD 0| * mkRat 25 100 :=
      mul_nonneg (abs_nonneg _) (by decide)
    have r3 : (0:ℚ) ≤ min (((a.company_count.getD 0 : ℕ) : ℚ) * mkRat 1 10) (mkRat 2 10) :=
      le_min (mul_nonneg (Nat.cast_nonneg _) (by decide)) (by decide)
    have r4 : (0:ℚ) ≤ a.financial_density.getD 0 * mkRat 15 100 :=
      mul_nonneg h (by decide)
    have r5 : (0:ℚ) ≤ min (((a.content_length.getD 0 : ℕ) : ℚ) / 1000) 1 * mkRat 1 10 :=
      mul_nonneg (le_min (by positivity) zero_le_one) (by decide)
    exact add_nonneg (add_nonneg (add_nonneg (add_nonneg r1 r2) r3) r4) r5
  exact ⟨le_min hinv zero_le_one, min_le_right _ _, le_min hrel zero_le_one, min_le_right _ _⟩

/-- Witness for C5 at the empty analysis record. -/
theorem c5_scores_clamped_witness :
    0 ≤ ({} : Analysis).financial_density.getD 0 ∧
    (0 ≤ calculate_investment_score {} ∧ calculate_investment_score {} ≤ 1 ∧
     0 ≤ calculate_relevance_score {} ∧ calculate_relevance_score {} ≤ 1) :=
  ⟨by decide, c5_scores_clamped {} (by decide)⟩

/-! ### Claim C6 -/

/-- C6: `categorize_news_impact` equals the claim's branch chain (exact
branch order, first matching branch wins) evaluated at the
positive-category and negative-category match counts. -/
theorem c6_impact_category_order (kf : KeywordsFound) (score : ℚ) :
    categorize_news_impact kf score =
      impact_category_claimed kf.positive.length kf.negative.length score := rfl

/-! ### Claim C7 -/

/-- C7: `filter_relevant_articles` is idempotent — filtering an
already-filtered, re-sorted list with the same threshold returns it
unchanged (every surviving element passes the threshold, and the stable
descending sort of a sorted list is the identity). -/
theorem c7_filter_relevant_idempotent (min_relevance : ℚ) (analyzed : List Analysis) :
    filter_relevant_articles min_relevance (filter_relevant_articles min_relevance analyzed) =
      filter_relevant_articles min_relevance analyzed := by
  unfold filter_relevant_articles
  have hall : ∀ x ∈ sortD (fun a : Analysis => a.relevance_score.getD 0)
      (analyzed.filter (fun a => a.relevance_score.getD 0 ≥ min_relevance)),
      (decide (x.relevance_score.getD 0 ≥ min_relevance)) = true := by
    intro x hx
    rw [mem_sortD] at hx
    exact (List.mem_filter.mp hx).2
  rw [List.filter_eq_self.mpr hall]
  exact sortD_eq_self _ (sortD_pairwise _ _)

/-! ### Claim C8 -/

/-- C8: holding the text, variant and full name (hence the base and
full-name bonuses and the stop-word penalty) fixed, enlarging the set of
satisfied context words never decreases the clamped confidence. -/
theorem c8_confidence_monotone (text variant full_name : String) (w w' : List String)
    (h : ∀ c ∈ context_words_list, w.contains c = true → w'.contains c = true) :
    confidence_with_window text variant full_name w ≤
      confidence_with_window text variant full_name w' := by
  unfold confidence_with_window
  simp only [qadd_eq, qmul_eq, qsub_eq, qmin_eq]
  apply min_le_min _ le_rfl
  apply sub_le_sub_right
  apply add_le_add_left
  apply mul_le_mul_of_nonneg_right _ (by decide : (0:ℚ) ≤ mkRat 1 10)
  exact_mod_cast length_filter_mono (fun x hx hp => h x hx hp)

/-- Witness for C8: adding the satisfied context word `company` to an empty
window never decreases the confidence. -/
theorem c8_confidence_monotone_witness :
    (∀ c ∈ context_words_list, (([] : List String)).contains c = true →
      (["company"]).contains c = true) ∧
    confidence_with_window "x" "abc" "abc" [] ≤
      confidence_with_window "x" "abc" "abc" ["company"] :=
  ⟨by decide, c8_confidence_monotone "x" "abc" "abc" [] ["company"] (by decide)⟩

/-! ### Claim C9 -/

theorem batchGo_length (f : Article → Except String Analysis) :
    ∀ (l : List Article) (n : Nat), (batchGo f n l).length = l.length := by
  intro l
  induction l with
  | nil => intro n; rfl
  | cons a t ih => intro n; simp [batchGo, ih (n+1)]

theorem batchGo_getElem? (f : Article → Except String Analysis) :
    ∀ (l : List Article) (n i : Nat),
      (batchGo f n l)[i]? = (l[i]?).map (fun a => batchStep f (n + i) a) := by
  intro l
  induction l with
  | nil => intro n i; simp [batchGo]
  | cons a t ih =>
    intro n i
    cases i with
    | zero => simp [batchGo]
    | succ j =>
      rw [show batchGo f n (a :: t) = batchStep f n a :: batchGo f (n+1) t from rfl,
        List.getElem?_cons_succ, List.getElem?_cons_succ, ih (n+1) j,
        show n + 1 + j = n + (j+1) by omega]

/-- C9: the batch produces exactly one Analysis per input article, in input
order, each the per-article outcome `batchStep`; when analysing raises, the
outcome is the minimal error record carrying only the identity fields and
the error marker, and the remaining articles are unaffected (the handler
is inside the loop body). -/
theorem c9_batch_isolation (f : Article → Except String Analysis) (articles : List Article) :
    (batch_analyze_articles f articles).length = articles.length ∧
    (∀ i : Nat, (batch_analyze_articles f articles)[i]? =
      (articles[i]?).map (fun a => batchStep f i a)) ∧
    (∀ (i : Nat) (a : Article) (e : String), f a = .error e →
      batchStep f i a = batchErrorRecord i a e ∧
      (batchErrorRecord i a e).error = some e ∧
      (batchErrorRecord i a e).content_length = none ∧
      (batchErrorRecord i a e).sentiment_score = none ∧
      (batchErrorRecord i a e).sentiment_label = none ∧
      (batchErrorRecord i a e).keywords_found = none ∧
      (batchErrorRecord i a e).matched_companies = none ∧
      (batchErrorRecord i a e).financial_numbers = none ∧
      (batchErrorRecord i a e).investment_score = none ∧
      (batchErrorRecord i a e).impact_category = none ∧
      (batchErrorRecord i a e).relevance_score = none) := by
  refine ⟨batchGo_length f articles 0, ?_, ?_⟩
  · intro i
    simpa using batchGo_getElem? f articles 0 i
  · intro i a e hf
    refine ⟨?_, rfl, rfl, rfl, rfl, rfl, rfl, rfl, rfl, rfl, rfl⟩
    rw [batchStep, hf]

/-- Witness for C9: a one-article batch whose analysis raises. -/
theorem c9_batch_isolation_witness :
    (batch_analyze_articles (fun _ => Except.error "boom") [({} : Article)]).length = 1 ∧
    (batch_analyze_articles (fun _ => Except.error "boom") [({} : Article)])[0]? =
      some (batchStep (fun _ => Except.error "boom") 0 {}) ∧
    batchStep (fun _ => Except.error "boom") 0 ({} : Article) = batchErrorRecord 0 {} "boom" := by
  have h := c9_batch_isolation (fun _ => Except.error "boom") [({} : Article)]
  exact ⟨h.1, by rw [h.2.1 0]; rfl, (h.2.2 0 {} "boom" rfl).1⟩

/-! ### Claim C10 -/

theorem removeDupGo_eq_spec :
    ∀ (l : List Article) (seen : List String), removeDupGo seen l = dedupSpecGo seen l := by
  intro l
  induction l with
  | nil => intro seen; rfl
  | cons a t ih =>
    intro seen
    show (if pyStrip (lowerStr (a.title.getD "")) = "" then removeDupGo seen t
      else if seen.any (fun s =>
          title_similarity (pyStrip (lowerStr (a.title.getD ""))) s > mkRat 7 10) then
        removeDupGo seen t
      else a :: removeDupGo (seen ++ [pyStrip (lowerStr (a.title.getD ""))]) t) = _
    by_cases h0 : pyStrip (lowerStr (a.title.getD "")) = ""
    · rw [if_pos h0]
      show _ = (if _ ≠ "" ∧ _ then _ else dedupSpecGo seen t)
      rw [if_neg (fun hc => hc.1 h0)]
      exact ih seen
    · rw [if_neg h0]
      by_cases hdup : (seen.any (fun s =>
          title_similarity (pyStrip (lowerStr (a.title.getD ""))) s > mkRat 7 10)) = true
      · rw [if_pos hdup]
        rw [List.any_eq_true] at hdup
        obtain ⟨s, hs, hsim⟩ := hdup
        show _ = (if _ then _ else dedupSpecGo seen t)
        rw [if_neg (fun hc => absurd (hc.2 s hs) (not_le.mpr (by simpa using hsim)))]
        exact ih seen
      · rw [if_neg hdup]
        rw [Bool.not_eq_true, List.any_eq_false] at hdup
        show _ = (if _ then a :: dedupSpecGo (seen ++ [_]) t else _)
        rw [if_pos ⟨h0, fun s hs => not_lt.mp (by simpa using hdup s hs)⟩]
        rw [ih (seen ++ [pyStrip (lowerStr (a.title.getD ""))])]

theorem removeDupGo_title_ne :
    ∀ (l : List Article) (seen : List String) (a : Article), a ∈ removeDupGo seen l →
      pyStrip (lowerStr (a.title.getD "")) ≠ "" := by
  intro l
  induction l with
  | nil => intro seen a h; simp [removeDupGo] at h
  | cons b t ih =>
    intro seen a h
    rw [removeDupGo] at h
    by_cases h0 : pyStrip (lowerStr (b.title.getD "")) = ""
    · rw [if_pos h0] at h
      exact ih seen a h
    · rw [if_neg h0] at h
      by_cases hdup : (seen.any (fun s =>
          title_similarity (pyStrip (lowerStr (b.title.getD ""))) s > mkRat 7 10)) = true
      · rw [if_pos hdup] at h
        exact ih seen a h
      · rw [if_neg hdup] at h
        rcases List.mem_cons.mp h with rfl | hmem
        · exact h0
        · exact ih _ a hmem

/-- C10: deduplication equals the reference recursion — an article with a
missing / empty / whitespace-only title is silently dropped, and an
article with a non-empty title is kept iff its title's Jaccard similarity
to each previously kept title is at most `0.7`; in particular every output
article has a non-empty stripped title. -/
theorem c10_dedup (articles : List Article) :
    remove_duplicate_articles articles = dedupSpecGo [] articles ∧
    (∀ a ∈ remove_duplicate_articles articles, pyStrip (lowerStr (a.title.getD "")) ≠ "") :=
  ⟨removeDupGo_eq_spec articles [], fun a h => removeDupGo_title_ne articles [] a h⟩

/-- Witness for C10 on the spec's example titles (one near-duplicate, one
whitespace-only title, one distinct title). -/
theorem c10_dedup_witness :
    remove_duplicate_articles
        [{ title := some "RIL announces new plant" }, { title := some "RIL announces a new plant" },
         { title := some "  " }, { title := some "TCS wins major deal" }] =
      dedupSpecGo []
        [{ title := some "RIL announces new plant" }, { title := some "RIL announces a new plant" },
         { title := some "  " }, { title := some "TCS wins major deal" }] ∧
    pyStrip (lowerStr ((some "RIL announces new plant" : Option String).getD "")) ≠ "" := by
  have h := c10_dedup
    [{ title := some "RIL announces new plant" }, { title := some "RIL announces a new plant" },
     { title := some "  " }, { title := some "TCS wins major deal" }]
  exact ⟨h.1, h.2 { title := some "RIL announces new plant" } (by decide)⟩

end StockAnalysis
